import Mathlib

/-!
Shallow embedding of `src/titration/utils/devices/temperature_control.py`
(class `Temperature_Control`): a PID temperature controller driving a relay
through time-proportioned duty cycling.

Modelling conventions:
* Python floats are embedded as rationals (`ℚ`); the constants involved are
  exact decimals and every claim settled numerically is far from any rounding
  boundary.
* Every call to `time.time()` made inside one `update()` invocation is
  modelled by the single tick timestamp `timeNow` (the spec's "best-effort
  timestamp" contract; sensor reads and actuator writes are assumed fast
  relative to the time step).
* The sensor is external: a tick takes the value `get_temperature()` would
  return as an explicit argument.  Side effects on collaborators (relay
  commands, sensor reads, rows appended to the data frame) are returned as
  explicit event data in `TickResult`.
* Python raises `ZeroDivisionError` when dividing a float by `0.0` (and only
  by exactly `0.0`); `update_gains` therefore returns `Option`, `none`
  standing for the raised exception.
-/

def PID_DEFAULT_KP : ℚ := 9/100
def PID_DEFAULT_TI : ℚ := 1/1000000
def PID_DEFAULT_TD : ℚ := 9
def PID_ANTIWINDUP_KP : ℚ := 4/100
def PID_ANTIWINDUP_TI : ℚ := 4/1000
def PID_ANTIWINDUP_TD : ℚ := 9

/-- The mutable fields of `Temperature_Control` (the measurement data frame
is modelled as emitted `SampleRecord`s instead of accumulated state). -/
structure TempControlState where
  printData : Bool
  controlActive : Bool
  kp : ℚ
  Ti : ℚ
  Td : ℚ
  k : ℚ
  integral : ℚ
  integral_prior : ℚ
  derivative : ℚ
  error : ℚ
  error_prior : ℚ
  stepCount : ℕ
  timeStep : ℚ
  timeNext : ℚ
  temperatureLast : ℚ
  relayOn : Bool
  setPoint : ℚ
deriving DecidableEq, Repr

/-- One row appended to the measurement data frame: `(time, temperature, gain)`. -/
structure SampleRecord where
  timestamp : ℚ
  temperature : ℚ
  gain : ℚ
deriving DecidableEq, Repr

/-- Result of one `update()` call: the post state plus the externally visible
events of the tick (relay commands issued, number of sensor reads performed,
sample rows appended). -/
structure TickResult where
  state : TempControlState
  relayCmds : List Bool
  sensorReads : ℕ
  samples : List SampleRecord
deriving DecidableEq, Repr

/-- Class-attribute initial values of `Temperature_Control` (`t0` is the
`time.time()` evaluated at class-body elaboration for `timeNext`). -/
def initState (t0 : ℚ) : TempControlState :=
  { printData := false
    controlActive := false
    kp := PID_DEFAULT_KP
    Ti := PID_DEFAULT_TI
    Td := PID_DEFAULT_TD
    k := 0
    integral := 0
    integral_prior := 0
    derivative := 0
    error := 0
    error_prior := 0
    stepCount := 0
    timeStep := 1
    timeNext := t0
    temperatureLast := 0
    relayOn := false
    setPoint := 30 }

/-- Embeds `__set_relayState`: records the new state and the command sent to
the relay driver. -/
def set_relayState (s : TempControlState) (b : Bool) : TempControlState × List Bool :=
  ({ s with relayOn := b }, [b])

/-- Embeds `__update_priors`. -/
def update_priors (s : TempControlState) : TempControlState :=
  { s with error_prior := s.error, integral_prior := s.integral }

/-- Embeds `__set_integral_zero`. -/
def set_integral_zero (s : TempControlState) : TempControlState :=
  { s with integral := 0 }

/-- Embeds `__set_controlparam_antiwindup`. -/
def set_controlparam_antiwindup (s : TempControlState) : TempControlState :=
  { s with kp := PID_ANTIWINDUP_KP, Ti := PID_ANTIWINDUP_TI, Td := PID_ANTIWINDUP_TD }

/-- Embeds `__set_controlparam_default`. -/
def set_controlparam_default (s : TempControlState) : TempControlState :=
  { s with kp := PID_DEFAULT_KP, Ti := PID_DEFAULT_TI, Td := PID_DEFAULT_TD }

/-- Embeds `__update_gains`; `none` models the `ZeroDivisionError` Python
raises on `(error - error_prior) / timeStep` when `timeStep` is exactly 0. -/
def update_gains (s : TempControlState) (temperature : ℚ) : Option TempControlState :=
  if s.timeStep = 0 then none
  else
    let error := s.setPoint - temperature
    let integral := s.integral_prior + error * s.timeStep
    let derivative := (error - s.error_prior) / s.timeStep
    some { s with
      error := error
      integral := integral
      derivative := derivative
      k := s.kp * (error + s.Ti * integral + s.Td * derivative) }

/-- Embeds the anti-windup block at the top of the off branch of `update()`:
`if stepCount < 250: __set_integral_zero()` /
`elif stepCount == 250: __set_controlparam_antiwindup()`. -/
def antiwindup_check (s : TempControlState) : TempControlState :=
  if s.stepCount < 250 then set_integral_zero s
  else if s.stepCount = 250 then set_controlparam_antiwindup s
  else s

/-- Embeds the `relayOn` branch of `update()`: turn the relay off, count a
step, commit priors, and schedule the remaining off time of the cycle. -/
def update_on (s : TempControlState) (timeNow : ℚ) : TickResult :=
  let p := set_relayState s false
  let s2 := { p.1 with stepCount := p.1.stepCount + 1 }
  let s3 := update_priors s2
  { state := { s3 with timeNext := timeNow + s3.timeStep * (1 - s3.k) }
    relayCmds := p.2
    sensorReads := 0
    samples := [] }

/-- Embeds the sampling (relay-off) branch of `update()`: read the sensor,
run the anti-windup block, update the gains, branch on temperature and `k`,
and append a sample row. -/
def update_off (s : TempControlState) (timeNow temperature : ℚ) : Option TickResult :=
  let s1 := { s with temperatureLast := temperature }
  let s2 := antiwindup_check s1
  match update_gains s2 temperature with
  | none => none
  | some s3 =>
    let r :=
      if temperature < s3.setPoint then
        if s3.k ≤ 0 then
          ({ s3 with k := 0, timeNext := timeNow + s3.timeStep }, ([] : List Bool))
        else if s3.k < 1 then
          let p := set_relayState s3 true
          ({ p.1 with timeNext := timeNow + p.1.timeStep * p.1.k }, p.2)
        else
          let p := set_relayState { s3 with k := 1 } true
          ({ p.1 with timeNext := timeNow + p.1.timeStep }, p.2)
      else
        let p := set_relayState { s3 with k := 0 } false
        (update_priors { p.1 with timeNext := timeNow + p.1.timeStep }, p.2)
    some { state := r.1
           relayCmds := r.2
           sensorReads := 1
           samples := [⟨timeNow, temperature, r.1.k⟩] }

/-- Embeds `update()`: one tick at time `timeNow`; `sensorTemp` is the value
`sensor.get_temperature()` returns if the tick samples. -/
def update (s : TempControlState) (timeNow sensorTemp : ℚ) : Option TickResult :=
  if s.controlActive = false then some ⟨s, [], 0, []⟩
  else if s.timeNext ≤ timeNow then
    if s.relayOn then some (update_on s timeNow)
    else update_off s timeNow sensorTemp
  else some ⟨s, [], 0, []⟩

/-- Embeds `activate()`. -/
def activate (s : TempControlState) (now : ℚ) : TempControlState :=
  set_controlparam_default { s with controlActive := true, timeNext := now }

/-- Embeds `deactivate()`. -/
def deactivate (s : TempControlState) : TempControlState × List Bool :=
  set_relayState { s with controlActive := false } false

/-- Embeds `at_temperature()` over the values of its two potential sensor
reads; returns the result and the number of reads performed (Python `and`
short-circuits, skipping the second read when the first comparison fails).
The method ignores `self.setPoint`, so the state argument is unused apart
from mirroring the bound method. -/
def at_temperature (s : TempControlState) (read1 read2 : ℚ) : Bool × ℕ :=
  let _ := s
  if 29.5 ≤ read1 then
    if read2 ≤ 30.5 then (true, 2) else (false, 2)
  else (false, 1)

/-- Runs a sequence of ticks from a state: apply `update` for each
`(timeNow, sensorTemp)` event in order; `none` if any tick raised. -/
def runFrom (s : TempControlState) : List (ℚ × ℚ) → Option TempControlState
  | [] => some s
  | ev :: evs =>
    match update s ev.1 ev.2 with
    | none => none
    | some r => runFrom r.state evs

/-- A run: starting from a freshly activated controller (class-attribute
defaults, then `activate` at time `ta`), apply `update` for each event. -/
def runState (t0 ta : ℚ) (evs : List (ℚ × ℚ)) : Option TempControlState :=
  runFrom (activate (initState t0) ta) evs

/-- States reachable from the class-attribute initial state by any sequence of
`update`, `activate` and `deactivate` calls. -/
inductive Reachable : TempControlState → Prop
  | init (t0 : ℚ) : Reachable (initState t0)
  | step_update (s : TempControlState) (now temp : ℚ) (r : TickResult) :
      Reachable s → update s now temp = some r → Reachable r.state
  | step_activate (s : TempControlState) (now : ℚ) :
      Reachable s → Reachable (activate s now)
  | step_deactivate (s : TempControlState) :
      Reachable s → Reachable (deactivate s).1

/-- The active gain-parameter triple of a state. -/
def gains (s : TempControlState) : ℚ × ℚ × ℚ := (s.kp, s.Ti, s.Td)

/-- The `default` gain preset. -/
def defaultGains : ℚ × ℚ × ℚ := (PID_DEFAULT_KP, PID_DEFAULT_TI, PID_DEFAULT_TD)

/-- The `anti_windup` gain preset. -/
def antiwindupGains : ℚ × ℚ × ℚ := (PID_ANTIWINDUP_KP, PID_ANTIWINDUP_TI, PID_ANTIWINDUP_TD)

/-- Iterate `update` from a state `n` times with a fixed tick time and sensor
value, keeping only the state. -/
def updateIter (s : TempControlState) (now temp : ℚ) : ℕ → Option TempControlState
  | 0 => some s
  | n + 1 => (updateIter s now temp n).bind fun s2 => (update s2 now temp).map TickResult.state

/-- The state `update_gains` returns (when it does not raise), written out. -/
def gainedState (s : TempControlState) (temperature : ℚ) : TempControlState :=
  let error := s.setPoint - temperature
  let integral := s.integral_prior + error * s.timeStep
  let derivative := (error - s.error_prior) / s.timeStep
  { s with
    error := error
    integral := integral
    derivative := derivative
    k := s.kp * (error + s.Ti * integral + s.Td * derivative) }

/-- The state right after `__update_gains` returns inside the sampling branch
of `update()`: sensor stored, anti-windup block applied, gains updated. -/
def offSampled (s : TempControlState) (temp : ℚ) : TempControlState :=
  gainedState (antiwindup_check { s with temperatureLast := temp }) temp

/-- Freshly activated controller from class defaults: `activate` at time 0. -/
def traceS0 : TempControlState := activate (initState 0) 0

/-- State after one sampling tick of `traceS0` at `timeNow = 0` reading 25 °C:
the computed gain 4.50000045 saturates, so `k` clamps to 1, the relay turns
on, and the on-phase lasts the full time step. -/
def traceS1 : TempControlState :=
  { printData := false
    controlActive := true
    kp := 9/100
    Ti := 1/1000000
    Td := 9
    k := 1
    integral := 5
    integral_prior := 0
    derivative := 5
    error := 5
    error_prior := 0
    stepCount := 0
    timeStep := 1
    timeNext := 1
    temperatureLast := 25
    relayOn := true
    setPoint := 30 }

/-- State after closing the on-phase of `traceS1` at `timeNow = 1`: the step
is counted and the priors are committed (`integral_prior` becomes 5). -/
def traceS2 : TempControlState :=
  { traceS1 with
    relayOn := false
    stepCount := 1
    error_prior := 5
    integral_prior := 5
    timeNext := 1 }

/-- State after the next sampling tick of `traceS2` at `timeNow = 1` reading
25 °C: despite `stepCount = 1 < 250`, the gain keeps an integral
contribution, `k = 0.09 * (5 + 10⁻⁶ · 10) = 0.4500009`. -/
def traceS3 : TempControlState :=
  { traceS2 with
    integral := 10
    derivative := 0
    k := 4500009/10000000
    relayOn := true
    timeNext := 1 + 4500009/10000000 }

/-- Invariant carried by every state of a run started from the class-attribute
defaults: before the 250th completed cycle the default preset is active, after
it the anti-windup preset is, and at the boundary the preset has already been
switched whenever the relay is on (the switch happens during the sampling tick
at `stepCount = 250`, before the relay can next turn on). -/
def RunInv (s : TempControlState) : Prop :=
  (s.stepCount < 250 → gains s = defaultGains) ∧
  (250 < s.stepCount → gains s = antiwindupGains) ∧
  (s.stepCount = 250 → s.relayOn = true → gains s = antiwindupGains)

/-! ### Helper lemmas -/

theorem antiwindup_check_eq (s : TempControlState) :
    antiwindup_check s =
      if s.stepCount < 250 then { s with integral := 0 }
      else if s.stepCount = 250 then
        { s with kp := PID_ANTIWINDUP_KP, Ti := PID_ANTIWINDUP_TI, Td := PID_ANTIWINDUP_TD }
      else s := rfl

theorem antiwindup_check_controlActive (s : TempControlState) :
    (antiwindup_check s).controlActive = s.controlActive := by
  rw [antiwindup_check_eq]; split <;> [rfl; (split <;> rfl)]

theorem antiwindup_check_relayOn (s : TempControlState) :
    (antiwindup_check s).relayOn = s.relayOn := by
  rw [antiwindup_check_eq]; split <;> [rfl; (split <;> rfl)]

theorem antiwindup_check_timeStep (s : TempControlState) :
    (antiwindup_check s).timeStep = s.timeStep := by
  rw [antiwindup_check_eq]; split <;> [rfl; (split <;> rfl)]

theorem antiwindup_check_setPoint (s : TempControlState) :
    (antiwindup_check s).setPoint = s.setPoint := by
  rw [antiwindup_check_eq]; split <;> [rfl; (split <;> rfl)]

theorem antiwindup_check_stepCount (s : TempControlState) :
    (antiwindup_check s).stepCount = s.stepCount := by
  rw [antiwindup_check_eq]; split <;> [rfl; (split <;> rfl)]

theorem antiwindup_check_error_prior (s : TempControlState) :
    (antiwindup_check s).error_prior = s.error_prior := by
  rw [antiwindup_check_eq]; split <;> [rfl; (split <;> rfl)]

theorem antiwindup_check_integral_prior (s : TempControlState) :
    (antiwindup_check s).integral_prior = s.integral_prior := by
  rw [antiwindup_check_eq]; split <;> [rfl; (split <;> rfl)]

theorem update_gains_eq_some (s : TempControlState) (temperature : ℚ)
    (h : s.timeStep ≠ 0) :
    update_gains s temperature = some (gainedState s temperature) := by
  rw [update_gains, if_neg h]; rfl

theorem update_noop_eq (s : TempControlState) (now temp : ℚ)
    (h : s.controlActive = false ∨ now < s.timeNext) :
    update s now temp = some ⟨s, [], 0, []⟩ := by
  rcases h with h | h
  · rw [update, if_pos h]
  · rw [update]
    rcases hc : s.controlActive with _ | _
    · simp
    · rw [if_neg (by simp), if_neg (by exact not_le.mpr h)]

theorem update_on_phase (s : TempControlState) (now temp : ℚ)
    (hc : s.controlActive = true) (ht : s.timeNext ≤ now) (hr : s.relayOn = true) :
    update s now temp = some (update_on s now) := by
  rw [update, if_neg (by simp [hc]), if_pos ht, if_pos hr]

theorem update_off_phase (s : TempControlState) (now temp : ℚ)
    (hc : s.controlActive = true) (ht : s.timeNext ≤ now) (hr : s.relayOn = false) :
    update s now temp = update_off s now temp := by
  rw [update, if_neg (by simp [hc]), if_pos ht, if_neg (by simp [hr])]

theorem update_on_eq (s : TempControlState) (now : ℚ) :
    update_on s now =
      ⟨{ s with relayOn := false, stepCount := s.stepCount + 1,
                error_prior := s.error, integral_prior := s.integral,
                timeNext := now + s.timeStep * (1 - s.k) },
       [false], 0, []⟩ := rfl

/-! ### Shape of the sampling branch -/

theorem gainedState_setPoint (s : TempControlState) (t : ℚ) :
    (gainedState s t).setPoint = s.setPoint := rfl

theorem gainedState_timeStep (s : TempControlState) (t : ℚ) :
    (gainedState s t).timeStep = s.timeStep := rfl

theorem gainedState_relayOn (s : TempControlState) (t : ℚ) :
    (gainedState s t).relayOn = s.relayOn := rfl

theorem gainedState_stepCount (s : TempControlState) (t : ℚ) :
    (gainedState s t).stepCount = s.stepCount := rfl

theorem gainedState_error_prior (s : TempControlState) (t : ℚ) :
    (gainedState s t).error_prior = s.error_prior := rfl

theorem gainedState_integral_prior (s : TempControlState) (t : ℚ) :
    (gainedState s t).integral_prior = s.integral_prior := rfl

theorem gainedState_error (s : TempControlState) (t : ℚ) :
    (gainedState s t).error = s.setPoint - t := rfl

theorem gainedState_integral (s : TempControlState) (t : ℚ) :
    (gainedState s t).integral = s.integral_prior + (s.setPoint - t) * s.timeStep := rfl

theorem gainedState_k (s : TempControlState) (t : ℚ) :
    (gainedState s t).k =
      s.kp * ((s.setPoint - t) + s.Ti * (s.integral_prior + (s.setPoint - t) * s.timeStep)
        + s.Td * ((s.setPoint - t - s.error_prior) / s.timeStep)) := rfl

theorem offSampled_setPoint (s : TempControlState) (t : ℚ) :
    (offSampled s t).setPoint = s.setPoint := by
  rw [offSampled, gainedState_setPoint, antiwindup_check_setPoint]

theorem offSampled_timeStep (s : TempControlState) (t : ℚ) :
    (offSampled s t).timeStep = s.timeStep := by
  rw [offSampled, gainedState_timeStep, antiwindup_check_timeStep]

theorem offSampled_relayOn (s : TempControlState) (t : ℚ) :
    (offSampled s t).relayOn = s.relayOn := by
  rw [offSampled, gainedState_relayOn, antiwindup_check_relayOn]

theorem offSampled_stepCount (s : TempControlState) (t : ℚ) :
    (offSampled s t).stepCount = s.stepCount := by
  rw [offSampled, gainedState_stepCount, antiwindup_check_stepCount]

theorem offSampled_error_prior (s : TempControlState) (t : ℚ) :
    (offSampled s t).error_prior = s.error_prior := by
  rw [offSampled, gainedState_error_prior, antiwindup_check_error_prior]

theorem offSampled_integral_prior (s : TempControlState) (t : ℚ) :
    (offSampled s t).integral_prior = s.integral_prior := by
  rw [offSampled, gainedState_integral_prior, antiwindup_check_integral_prior]

theorem update_off_above_eq (s : TempControlState) (now temp : ℚ)
    (h0 : s.timeStep ≠ 0) (hT : s.setPoint ≤ temp) :
    update_off s now temp =
      some { state := { offSampled s temp with
                        k := 0
                        relayOn := false
                        timeNext := now + (offSampled s temp).timeStep
                        error_prior := (offSampled s temp).error
                        integral_prior := (offSampled s temp).integral }
             relayCmds := [false]
             sensorReads := 1
             samples := [⟨now, temp, 0⟩] } := by
  have hts : (antiwindup_check { s with temperatureLast := temp }).timeStep ≠ 0 := by
    rw [antiwindup_check_timeStep]; exact h0
  have hsp : ¬ temp < (offSampled s temp).setPoint := by
    rw [offSampled_setPoint]; exact not_lt.mpr hT
  simp only [update_off]
  rw [update_gains_eq_some _ _ hts]
  simp only [offSampled] at hsp ⊢
  simp only [if_neg hsp]
  rfl

theorem update_off_low_eq (s : TempControlState) (now temp : ℚ)
    (h0 : s.timeStep ≠ 0) (hT : temp < s.setPoint) (hk : (offSampled s temp).k ≤ 0) :
    update_off s now temp =
      some { state := { offSampled s temp with
                        k := 0
                        timeNext := now + (offSampled s temp).timeStep }
             relayCmds := []
             sensorReads := 1
             samples := [⟨now, temp, 0⟩] } := by
  have hts : (antiwindup_check { s with temperatureLast := temp }).timeStep ≠ 0 := by
    rw [antiwindup_check_timeStep]; exact h0
  have hsp : temp < (offSampled s temp).setPoint := by
    rw [offSampled_setPoint]; exact hT
  simp only [update_off]
  rw [update_gains_eq_some _ _ hts]
  simp only [offSampled] at hsp hk ⊢
  simp only [if_pos hsp, if_pos hk]

theorem update_off_mid_eq (s : TempControlState) (now temp : ℚ)
    (h0 : s.timeStep ≠ 0) (hT : temp < s.setPoint)
    (hk0 : ¬ (offSampled s temp).k ≤ 0) (hk1 : (offSampled s temp).k < 1) :
    update_off s now temp =
      some { state := { offSampled s temp with
                        relayOn := true
                        timeNext := now + (offSampled s temp).timeStep * (offSampled s temp).k }
             relayCmds := [true]
             sensorReads := 1
             samples := [⟨now, temp, (offSampled s temp).k⟩] } := by
  have hts : (antiwindup_check { s with temperatureLast := temp }).timeStep ≠ 0 := by
    rw [antiwindup_check_timeStep]; exact h0
  have hsp : temp < (offSampled s temp).setPoint := by
    rw [offSampled_setPoint]; exact hT
  simp only [update_off]
  rw [update_gains_eq_some _ _ hts]
  simp only [offSampled] at hsp hk0 hk1 ⊢
  simp only [if_pos hsp, if_neg hk0, if_pos hk1]
  rfl

theorem update_off_high_eq (s : TempControlState) (now temp : ℚ)
    (h0 : s.timeStep ≠ 0) (hT : temp < s.setPoint)
    (hk0 : ¬ (offSampled s temp).k ≤ 0) (hk1 : ¬ (offSampled s temp).k < 1) :
    update_off s now temp =
      some { state := { offSampled s temp with
                        k := 1
                        relayOn := true
                        timeNext := now + (offSampled s temp).timeStep }
             relayCmds := [true]
             sensorReads := 1
             samples := [⟨now, temp, 1⟩] } := by
  have hts : (antiwindup_check { s with temperatureLast := temp }).timeStep ≠ 0 := by
    rw [antiwindup_check_timeStep]; exact h0
  have hsp : temp < (offSampled s temp).setPoint := by
    rw [offSampled_setPoint]; exact hT
  simp only [update_off]
  rw [update_gains_eq_some _ _ hts]
  simp only [offSampled] at hsp hk0 hk1 ⊢
  simp only [if_pos hsp, if_neg hk0, if_neg hk1]
  rfl

/-! ### Claim theorems -/

/-- C3: for every off-phase tick where the sampled temperature is at or above
the set point, `k` is forced to 0, the actuator is commanded off, the priors
are committed (`error_prior = error`, `integral_prior = integral`), and
`next_action_time = now + time_step`. -/
theorem off_tick_above_setpoint (s : TempControlState) (now temp : ℚ)
    (hc : s.controlActive = true) (hr : s.relayOn = false) (ht : s.timeNext ≤ now)
    (hT : s.setPoint ≤ temp) (h0 : s.timeStep ≠ 0) :
    ∃ r : TickResult, update s now temp = some r ∧
      r.state.k = 0 ∧ r.state.relayOn = false ∧ r.relayCmds = [false] ∧
      r.state.error_prior = r.state.error ∧ r.state.integral_prior = r.state.integral ∧
      r.state.timeNext = now + s.timeStep := by
  refine ⟨_, (update_off_phase s now temp hc ht hr).trans (update_off_above_eq s now temp h0 hT),
    rfl, rfl, rfl, rfl, rfl, ?_⟩
  show now + (offSampled s temp).timeStep = now + s.timeStep
  rw [offSampled_timeStep]

/-- C3 witness: a freshly activated controller at temperature 31 ≥ 30. -/
theorem off_tick_above_setpoint_witness :
    ∃ r : TickResult, update traceS0 0 31 = some r ∧
      r.state.k = 0 ∧ r.state.relayOn = false ∧ r.relayCmds = [false] ∧
      r.state.error_prior = r.state.error ∧ r.state.integral_prior = r.state.integral ∧
      r.state.timeNext = 0 + traceS0.timeStep :=
  off_tick_above_setpoint traceS0 0 31 rfl rfl
    (by norm_num [traceS0, activate, set_controlparam_default, initState])
    (by norm_num [traceS0, activate, set_controlparam_default, initState])
    (by norm_num [traceS0, activate, set_controlparam_default, initState])

/-- C4: for every off-phase tick with temperature below the set point whose
computed gain is ≤ 0, `k` is clamped to exactly 0, no relay command is issued
(the actuator stays off), `next_action_time = now + time_step`, and the priors
are left unchanged — this branch does not commit them. -/
theorem off_tick_k_nonpos_frame (s : TempControlState) (now temp : ℚ)
    (hc : s.controlActive = true) (hr : s.relayOn = false) (ht : s.timeNext ≤ now)
    (hT : temp < s.setPoint) (h0 : s.timeStep ≠ 0)
    (hk : (offSampled s temp).k ≤ 0) :
    ∃ r : TickResult, update s now temp = some r ∧
      r.state.k = 0 ∧ r.relayCmds = [] ∧ r.state.relayOn = false ∧
      r.state.timeNext = now + s.timeStep ∧
      r.state.error_prior = s.error_prior ∧ r.state.integral_prior = s.integral_prior := by
  refine ⟨_, (update_off_phase s now temp hc ht hr).trans (update_off_low_eq s now temp h0 hT hk),
    rfl, rfl, ?_, ?_, ?_, ?_⟩
  · show (offSampled s temp).relayOn = false
    rw [offSampled_relayOn]; exact hr
  · show now + (offSampled s temp).timeStep = now + s.timeStep
    rw [offSampled_timeStep]
  · exact offSampled_error_prior s temp
  · exact offSampled_integral_prior s temp

/-- C4 witness: a freshly activated controller with `error_prior = 100`
sampling 29 °C computes a negative gain, which is clamped to 0 with the
priors untouched. -/
theorem off_tick_k_nonpos_frame_witness :
    ∃ r : TickResult, update { traceS0 with error_prior := 100 } 0 29 = some r ∧
      r.state.k = 0 ∧ r.relayCmds = [] ∧ r.state.relayOn = false ∧
      r.state.timeNext = 0 + ({ traceS0 with error_prior := 100 } : TempControlState).timeStep ∧
      r.state.error_prior = ({ traceS0 with error_prior := 100 } : TempControlState).error_prior ∧
      r.state.integral_prior = ({ traceS0 with error_prior := 100 } : TempControlState).integral_prior :=
  off_tick_k_nonpos_frame { traceS0 with error_prior := 100 } 0 29 rfl rfl
    (by norm_num [traceS0, activate, set_controlparam_default, initState])
    (by norm_num [traceS0, activate, set_controlparam_default, initState])
    (by norm_num [traceS0, activate, set_controlparam_default, initState])
    (by norm_num [offSampled, gainedState, antiwindup_check, set_integral_zero,
      set_controlparam_antiwindup, traceS0, activate, set_controlparam_default, initState,
      PID_DEFAULT_KP, PID_DEFAULT_TI, PID_DEFAULT_TD])

/-- C5: every tick that closes the on-phase (`relay_on` true and
`now ≥ next_action_time`) commands the actuator off, increments `step_count`
by exactly 1, commits the priors from the stored PID state, schedules
`next_action_time = now + time_step * (1 - k)`, and performs no sensor read
and records no sample. -/
theorem on_phase_close_commit (s : TempControlState) (now temp : ℚ)
    (hc : s.controlActive = true) (hr : s.relayOn = true) (ht : s.timeNext ≤ now) :
    ∃ r : TickResult, update s now temp = some r ∧
      r.relayCmds = [false] ∧ r.state.relayOn = false ∧
      r.state.stepCount = s.stepCount + 1 ∧
      r.state.error_prior = s.error ∧ r.state.integral_prior = s.integral ∧
      r.state.timeNext = now + s.timeStep * (1 - s.k) ∧
      r.sensorReads = 0 ∧ r.samples = [] := by
  refine ⟨_, update_on_phase s now temp hc ht hr, ?_⟩
  rw [update_on_eq]
  exact ⟨rfl, rfl, rfl, rfl, rfl, rfl, rfl, rfl⟩

/-- C5 witness: closing the on-phase entered by the first sampling tick. -/
theorem on_phase_close_commit_witness :
    ∃ r : TickResult, update traceS1 1 25 = some r ∧
      r.relayCmds = [false] ∧ r.state.relayOn = false ∧
      r.state.stepCount = traceS1.stepCount + 1 ∧
      r.state.error_prior = traceS1.error ∧ r.state.integral_prior = traceS1.integral ∧
      r.state.timeNext = 1 + traceS1.timeStep * (1 - traceS1.k) ∧
      r.sensorReads = 0 ∧ r.samples = [] :=
  on_phase_close_commit traceS1 1 25 rfl rfl (by norm_num [traceS1])

/-- C6: a tick with `control_active` false, or called before
`next_action_time`, is a no-op: the state is unchanged, no relay command is
issued, no sensor read happens, no sample is recorded, and iterating any
number of such ticks still leaves the state unchanged. -/
theorem tick_noop_idempotent (s : TempControlState) (now temp : ℚ)
    (h : s.controlActive = false ∨ now < s.timeNext) :
    update s now temp = some ⟨s, [], 0, []⟩ ∧
    ∀ n : ℕ, updateIter s now temp n = some s := by
  have h1 := update_noop_eq s now temp h
  refine ⟨h1, ?_⟩
  intro n
  induction n with
  | zero => rfl
  | succ n ih => simp [updateIter, ih, h1]

/-- C6 witness: the inactive initial controller, three ticks. -/
theorem tick_noop_idempotent_witness :
    update (initState 0) 5 25 = some ⟨initState 0, [], 0, []⟩ ∧
    updateIter (initState 0) 5 25 3 = some (initState 0) :=
  ⟨(tick_noop_idempotent (initState 0) 5 25 (Or.inl rfl)).1,
   (tick_noop_idempotent (initState 0) 5 25 (Or.inl rfl)).2 3⟩

/-- C8 counterexample: the claim says the gain computation fails for every
`time_step ≤ 0`, but at `time_step = -1 ≤ 0` it returns without error. -/
theorem update_gains_negative_timestep_ok :
    ({ initState 0 with timeStep := -1 } : TempControlState).timeStep ≤ 0 ∧
    (update_gains { initState 0 with timeStep := -1 } 25).isSome = true := by
  constructor
  · show (-1 : ℚ) ≤ 0
    norm_num
  · rw [update_gains_eq_some _ _ (by norm_num)]
    rfl

/-- C8 amended: the PID gain computation raises the division-by-zero error
exactly when `time_step = 0`; for every nonzero `time_step` (positive or
negative) it returns a value. -/
theorem update_gains_fails_iff_zero_timestep (s : TempControlState) (temp : ℚ) :
    update_gains s temp = none ↔ s.timeStep = 0 := by
  unfold update_gains
  split <;> simp_all

/-- C10 counterexample: the claim says the sensor is read twice, but when the
first read is below 29.5 the conjunction short-circuits and only one read
happens. -/
theorem at_temperature_single_read :
    (at_temperature (initState 0) 20 100).2 = 1 ∧
    (at_temperature (initState 0) 20 100).2 ≠ 2 := by
  norm_num [at_temperature]

/-- C10 amended: `at_temperature()` returns true iff its first sensor read is
≥ 29.5 and its second read is ≤ 30.5; the bounds are hard-coded and
independent of the configured set point (the result is the same for every
state `s`), and a second read happens only when the first comparison
succeeds. -/
theorem at_temperature_spec (s : TempControlState) (read1 read2 : ℚ) :
    ((at_temperature s read1 read2).1 = true ↔ (29.5 ≤ read1 ∧ read2 ≤ 30.5)) ∧
    (at_temperature s read1 read2).2 = if 29.5 ≤ read1 then 2 else 1 := by
  simp only [at_temperature]
  split_ifs with h1 h2 <;> simp_all

/-- C1: the warm-up integral suppression is a dead store — `update()` zeroes
`integral` before calling `__update_gains`, which immediately overwrites it
with `integral_prior + error * time_step`.  On the third tick of a fresh run
(all ticks with `step_count < 250`) the produced gain differs from
`kp * (error + Ti * 0 + Td * derivative)`, and the warm-up tick's integral
committed to `integral_prior` is nonzero. -/
theorem warmup_integral_not_suppressed :
    update traceS0 0 25 = some ⟨traceS1, [true], 1, [⟨0, 25, 1⟩]⟩ ∧
    update traceS1 1 25 = some ⟨traceS2, [false], 0, []⟩ ∧
    update traceS2 1 25 = some ⟨traceS3, [true], 1, [⟨1, 25, 4500009/10000000⟩]⟩ ∧
    traceS2.stepCount < 250 ∧
    traceS3.k ≠ traceS3.kp * (traceS3.error + traceS3.Ti * 0 + traceS3.Td * traceS3.derivative) ∧
    traceS2.integral_prior ≠ 0 := by
  refine ⟨?_, ?_, ?_, ?_, ?_, ?_⟩
  · norm_num [update, update_off, update_gains, antiwindup_check, set_integral_zero,
      set_controlparam_antiwindup, set_relayState, update_priors, traceS0, traceS1,
      activate, set_controlparam_default, initState,
      PID_DEFAULT_KP, PID_DEFAULT_TI, PID_DEFAULT_TD]
  · norm_num [update, update_on, set_relayState, update_priors, traceS1, traceS2]
  · norm_num [update, update_off, update_gains, antiwindup_check, set_integral_zero,
      set_controlparam_antiwindup, set_relayState, update_priors, traceS1, traceS2, traceS3,
      PID_DEFAULT_KP, PID_DEFAULT_TI, PID_DEFAULT_TD]
  · norm_num [traceS2, traceS1]
  · norm_num [traceS3, traceS2, traceS1]
  · norm_num [traceS2, traceS1]

/-- C7 counterexample: in Scenario A (`set_point = 30`, temperature 25,
default gains, `step_count = 0`, zeroed priors, `time_step = 1`) the relay
does turn on, but `next_action_time - now` equals exactly 1, not a value
strictly between 0 and 1. -/
theorem scenarioA_not_proportioned :
    update traceS0 0 25 = some ⟨traceS1, [true], 1, [⟨0, 25, 1⟩]⟩ ∧
    traceS1.relayOn = true ∧ ¬ (traceS1.timeNext - 0 < 1) := by
  refine ⟨?_, rfl, ?_⟩
  · norm_num [update, update_off, update_gains, antiwindup_check, set_integral_zero,
      set_controlparam_antiwindup, set_relayState, update_priors, traceS0, traceS1,
      activate, set_controlparam_default, initState,
      PID_DEFAULT_KP, PID_DEFAULT_TI, PID_DEFAULT_TD]
  · norm_num [traceS1]

/-- C7 amended: in Scenario A the computed gain `0.09 * (5 + 5·10⁻⁶ + 45)`
saturates (`k ≥ 1`), so `k` clamps to 1, `relay_on` transitions to true, and
`next_action_time - now` equals exactly `time_step = 1` — a saturated
full-length on-phase rather than a strictly proportioned one. -/
theorem scenarioA_saturated :
    update traceS0 0 25 = some ⟨traceS1, [true], 1, [⟨0, 25, 1⟩]⟩ ∧
    traceS1.relayOn = true ∧ traceS1.k = 1 ∧ traceS1.timeNext - 0 = 1 := by
  refine ⟨?_, rfl, rfl, ?_⟩
  · norm_num [update, update_off, update_gains, antiwindup_check, set_integral_zero,
      set_controlparam_antiwindup, set_relayState, update_priors, traceS0, traceS1,
      activate, set_controlparam_default, initState,
      PID_DEFAULT_KP, PID_DEFAULT_TI, PID_DEFAULT_TD]
  · norm_num [traceS1]

/-! ### Case analysis of a tick -/

theorem update_off_none_of_zero (s : TempControlState) (now temp : ℚ)
    (h0 : s.timeStep = 0) : update_off s now temp = none := by
  simp only [update_off]
  rw [update_gains, if_pos (by rw [antiwindup_check_timeStep]; exact h0)]

theorem update_cases_top (s : TempControlState) (now temp : ℚ) (r : TickResult)
    (h : update s now temp = some r) :
    r = ⟨s, [], 0, []⟩ ∨
    (s.controlActive = true ∧ s.timeNext ≤ now ∧ s.relayOn = true ∧ r = update_on s now) ∨
    (s.controlActive = true ∧ s.timeNext ≤ now ∧ s.relayOn = false ∧
      update_off s now temp = some r) := by
  unfold update at h
  split at h
  · exact Or.inl (Option.some.inj h).symm
  · next hc =>
    have hc' : s.controlActive = true := by
      cases hcv : s.controlActive
      · exact absurd hcv hc
      · rfl
    split at h
    · next ht =>
      split at h
      · next hr => exact Or.inr (Or.inl ⟨hc', ht, hr, (Option.some.inj h).symm⟩)
      · next hr =>
        exact Or.inr (Or.inr ⟨hc', ht, Bool.not_eq_true _ ▸ hr, h⟩)
    · next => exact Or.inl (Option.some.inj h).symm

theorem update_off_cases (s : TempControlState) (now temp : ℚ) (r : TickResult)
    (h : update_off s now temp = some r) :
    s.timeStep ≠ 0 ∧
    ((temp < s.setPoint ∧ (offSampled s temp).k ≤ 0 ∧
        r.state = { offSampled s temp with
                    k := 0
                    timeNext := now + (offSampled s temp).timeStep }) ∨
     (temp < s.setPoint ∧ ¬ (offSampled s temp).k ≤ 0 ∧ (offSampled s temp).k < 1 ∧
        r.state = { offSampled s temp with
                    relayOn := true
                    timeNext := now + (offSampled s temp).timeStep * (offSampled s temp).k }) ∨
     (temp < s.setPoint ∧ ¬ (offSampled s temp).k ≤ 0 ∧ ¬ (offSampled s temp).k < 1 ∧
        r.state = { offSampled s temp with
                    k := 1
                    relayOn := true
                    timeNext := now + (offSampled s temp).timeStep }) ∨
     (s.setPoint ≤ temp ∧
        r.state = { offSampled s temp with
                    k := 0
                    relayOn := false
                    timeNext := now + (offSampled s temp).timeStep
                    error_prior := (offSampled s temp).error
                    integral_prior := (offSampled s temp).integral })) := by
  by_cases h0 : s.timeStep = 0
  · rw [update_off_none_of_zero s now temp h0] at h
    exact absurd h (by simp)
  · refine ⟨h0, ?_⟩
    by_cases hT : temp < s.setPoint
    · by_cases hk : (offSampled s temp).k ≤ 0
      · rw [update_off_low_eq s now temp h0 hT hk] at h
        exact Or.inl ⟨hT, hk, congrArg TickResult.state (Option.some.inj h).symm⟩
      · by_cases hk1 : (offSampled s temp).k < 1
        · rw [update_off_mid_eq s now temp h0 hT hk hk1] at h
          exact Or.inr (Or.inl ⟨hT, hk, hk1, congrArg TickResult.state (Option.some.inj h).symm⟩)
        · rw [update_off_high_eq s now temp h0 hT hk hk1] at h
          exact Or.inr (Or.inr (Or.inl ⟨hT, hk, hk1,
            congrArg TickResult.state (Option.some.inj h).symm⟩))
    · rw [update_off_above_eq s now temp h0 (not_lt.mp hT)] at h
      exact Or.inr (Or.inr (Or.inr ⟨not_lt.mp hT,
        congrArg TickResult.state (Option.some.inj h).symm⟩))

/-! ### Gain-preset lemmas -/

theorem gains_offSampled (s : TempControlState) (t : ℚ) :
    gains (offSampled s t) = gains (antiwindup_check { s with temperatureLast := t }) := rfl

theorem gains_antiwindup_check_lt (s : TempControlState) (h : s.stepCount < 250) :
    gains (antiwindup_check s) = gains s := by
  rw [antiwindup_check_eq, if_pos h]
  rfl

theorem gains_antiwindup_check_eq250 (s : TempControlState) (h : s.stepCount = 250) :
    gains (antiwindup_check s) = antiwindupGains := by
  rw [antiwindup_check_eq, if_neg (by omega), if_pos h]
  rfl

theorem gains_antiwindup_check_gt (s : TempControlState) (h : 250 < s.stepCount) :
    gains (antiwindup_check s) = gains s := by
  rw [antiwindup_check_eq, if_neg (by omega), if_neg (by omega)]

theorem runInv_offSampled (s : TempControlState) (temp : ℚ) (ih : RunInv s) :
    (s.stepCount < 250 → gains (offSampled s temp) = defaultGains) ∧
    (250 ≤ s.stepCount → gains (offSampled s temp) = antiwindupGains) := by
  have hsc : ({ s with temperatureLast := temp } : TempControlState).stepCount = s.stepCount :=
    rfl
  constructor
  · intro hlt
    rw [gains_offSampled, gains_antiwindup_check_lt _ (by rw [hsc]; exact hlt)]
    exact ih.1 hlt
  · intro hge
    rcases Nat.lt_or_ge 250 s.stepCount with hgt | hle
    · rw [gains_offSampled, gains_antiwindup_check_gt _ (by rw [hsc]; exact hgt)]
      exact ih.2.1 hgt
    · have h250 : s.stepCount = 250 := le_antisymm hle hge
      rw [gains_offSampled, gains_antiwindup_check_eq250 _ (by rw [hsc]; exact h250)]

theorem runInv_of_sampled (s : TempControlState) (temp : ℚ) (x : TempControlState)
    (ih : RunInv s) (hg : gains x = gains (offSampled s temp))
    (hn : x.stepCount = s.stepCount) : RunInv x := by
  refine ⟨?_, ?_, ?_⟩
  · intro hlt
    rw [hn] at hlt
    rw [hg]; exact (runInv_offSampled s temp ih).1 hlt
  · intro hgt
    rw [hn] at hgt
    rw [hg]; exact (runInv_offSampled s temp ih).2 hgt.le
  · intro heq _
    rw [hn] at heq
    rw [hg]; exact (runInv_offSampled s temp ih).2 heq.ge

theorem runInv_step (s : TempControlState) (now temp : ℚ) (r : TickResult)
    (h : update s now temp = some r) (ih : RunInv s) : RunInv r.state := by
  rcases update_cases_top s now temp r h with hno | ⟨-, -, hr, heq⟩ | ⟨-, -, -, hoff⟩
  · rw [hno]; exact ih
  · rw [heq, update_on_eq]
    refine ⟨?_, ?_, ?_⟩
    · show s.stepCount + 1 < 250 → gains s = defaultGains
      intro hlt
      exact ih.1 (by omega)
    · show 250 < s.stepCount + 1 → gains s = antiwindupGains
      intro hgt
      rcases Nat.lt_or_ge 250 s.stepCount with hgt2 | hle
      · exact ih.2.1 hgt2
      · exact ih.2.2 (by omega) hr
    · intro _ hfalse
      simp at hfalse
  · rcases update_off_cases s now temp r hoff with ⟨-, hcase⟩
    rcases hcase with ⟨-, -, hst⟩ | ⟨-, -, -, hst⟩ | ⟨-, -, -, hst⟩ | ⟨-, hst⟩ <;>
      (rw [hst]; exact runInv_of_sampled s temp _ ih rfl (offSampled_stepCount s temp))

theorem update_keeps_antiwindup (s : TempControlState) (now temp : ℚ) (r : TickResult)
    (h : update s now temp = some r) (hg : gains s = antiwindupGains) :
    gains r.state = antiwindupGains := by
  rcases update_cases_top s now temp r h with hno | ⟨-, -, -, heq⟩ | ⟨-, -, -, hoff⟩
  · rw [hno]; exact hg
  · rw [heq, update_on_eq]; exact hg
  · rcases update_off_cases s now temp r hoff with ⟨-, hcase⟩
    have hg1 : gains ({ s with temperatureLast := temp } : TempControlState) = antiwindupGains :=
      hg
    have key : gains (offSampled s temp) = antiwindupGains := by
      rw [gains_offSampled]
      rcases Nat.lt_trichotomy
          ({ s with temperatureLast := temp } : TempControlState).stepCount 250 with
        hlt | heq2 | hgt
      · rw [gains_antiwindup_check_lt _ hlt]; exact hg1
      · rw [gains_antiwindup_check_eq250 _ heq2]
      · rw [gains_antiwindup_check_gt _ hgt]; exact hg1
    rcases hcase with ⟨-, -, hst⟩ | ⟨-, -, -, hst⟩ | ⟨-, -, -, hst⟩ | ⟨-, hst⟩ <;>
      (rw [hst]; exact key)

theorem runInv_runFrom (evs : List (ℚ × ℚ)) (s0 s : TempControlState)
    (h : runFrom s0 evs = some s) (h0 : RunInv s0) : RunInv s := by
  induction evs generalizing s0 with
  | nil =>
    have h2 : s0 = s := Option.some.inj h
    rw [← h2]; exact h0
  | cons ev evs ih =>
    rw [runFrom] at h
    cases hup : update s0 ev.1 ev.2 with
    | none => rw [hup] at h; exact absurd h (by simp)
    | some r =>
      rw [hup] at h
      exact ih r.state h (runInv_step s0 ev.1 ev.2 r hup h0)

theorem runInv_start (t0 ta : ℚ) : RunInv (activate (initState t0) ta) := by
  refine ⟨?_, ?_, ?_⟩
  · intro _; rfl
  · intro hgt
    exact absurd hgt (by norm_num [activate, set_controlparam_default, initState])
  · intro heq
    exact absurd heq (by norm_num [activate, set_controlparam_default, initState])

/-- C2: in a run from a freshly activated controller, every state with
`step_count < 250` carries the default preset (also through the anti-windup
block of the next sampling tick), every sampling tick at `step_count ≥ 250`
runs its gain computation with the anti-windup preset, and once the preset is
`anti_windup` no further tick ever reverts it to `default`. -/
theorem anti_windup_transition_monotone (t0 ta : ℚ) (evs : List (ℚ × ℚ))
    (s : TempControlState) (h : runState t0 ta evs = some s) :
    (s.stepCount < 250 →
      gains s = defaultGains ∧ gains (antiwindup_check s) = defaultGains) ∧
    (250 ≤ s.stepCount → gains (antiwindup_check s) = antiwindupGains) ∧
    (∀ now temp r, gains s = antiwindupGains → update s now temp = some r →
      gains r.state = antiwindupGains) := by
  have inv : RunInv s := runInv_runFrom evs (activate (initState t0) ta) s h (runInv_start t0 ta)
  refine ⟨?_, ?_, ?_⟩
  · intro hlt
    refine ⟨inv.1 hlt, ?_⟩
    rw [gains_antiwindup_check_lt _ hlt]
    exact inv.1 hlt
  · intro hge
    rcases Nat.lt_or_ge 250 s.stepCount with hgt | hle
    · rw [gains_antiwindup_check_gt _ hgt]
      exact inv.2.1 hgt
    · exact gains_antiwindup_check_eq250 _ (le_antisymm hle hge)
  · intro now temp r hg hupd
    exact update_keeps_antiwindup s now temp r hupd hg

/-- C2 witness: the empty run, whose state has `step_count = 0 < 250` and the
default preset active. -/
theorem anti_windup_transition_monotone_witness :
    gains traceS0 = defaultGains ∧ gains (antiwindup_check traceS0) = defaultGains :=
  (anti_windup_transition_monotone 0 0 [] traceS0 rfl).1
    (by norm_num [traceS0, activate, set_controlparam_default, initState])

/-! ### Relay gain-bound invariant -/

theorem inv9_step (s : TempControlState) (now temp : ℚ) (r : TickResult)
    (h : update s now temp = some r)
    (ih : (s.relayOn = true → 0 < s.k ∧ s.k ≤ 1) ∧ s.timeStep = 1) :
    (r.state.relayOn = true → 0 < r.state.k ∧ r.state.k ≤ 1) ∧ r.state.timeStep = 1 := by
  rcases update_cases_top s now temp r h with hno | ⟨-, -, -, heq⟩ | ⟨-, -, hr, hoff⟩
  · rw [hno]; exact ih
  · rw [heq, update_on_eq]
    constructor
    · intro hfalse
      simp at hfalse
    · exact ih.2
  · rcases update_off_cases s now temp r hoff with ⟨-, hcase⟩
    rcases hcase with ⟨-, -, hst⟩ | ⟨-, hk0, hk1, hst⟩ | ⟨-, hk0, -, hst⟩ | ⟨-, hst⟩
    · rw [hst]
      constructor
      · intro hrel
        have h2 : s.relayOn = true := by
          rw [← offSampled_relayOn s temp]
          exact hrel
        rw [hr] at h2
        simp at h2
      · show (offSampled s temp).timeStep = 1
        rw [offSampled_timeStep]
        exact ih.2
    · rw [hst]
      constructor
      · intro _
        exact ⟨not_le.mp hk0, hk1.le⟩
      · show (offSampled s temp).timeStep = 1
        rw [offSampled_timeStep]
        exact ih.2
    · rw [hst]
      constructor
      · intro _
        exact ⟨one_pos, le_refl 1⟩
      · show (offSampled s temp).timeStep = 1
        rw [offSampled_timeStep]
        exact ih.2
    · rw [hst]
      constructor
      · intro hfalse
        simp at hfalse
      · show (offSampled s temp).timeStep = 1
        rw [offSampled_timeStep]
        exact ih.2

theorem inv9_reachable (s : TempControlState) (h : Reachable s) :
    (s.relayOn = true → 0 < s.k ∧ s.k ≤ 1) ∧ s.timeStep = 1 := by
  induction h with
  | init t0 =>
    constructor
    · intro hrel
      simp [initState] at hrel
    · rfl
  | step_update s now temp r hs hupd ih => exact inv9_step s now temp r hupd ih
  | step_activate s now hs ih =>
    constructor
    · intro hrel
      exact ih.1 hrel
    · exact ih.2
  | step_deactivate s hs ih =>
    constructor
    · intro hrel
      simp [deactivate, set_relayState] at hrel
    · exact ih.2

/-- C9: in every state reachable from the class defaults by `update`,
`activate` and `deactivate`, the relay being on implies `0 < k ≤ 1`, so a
tick that closes the on-phase always schedules
`next_action_time = now + time_step * (1 - k) ≥ now`. -/
theorem relay_k_bounds_invariant (s : TempControlState) (h : Reachable s) :
    (s.relayOn = true → 0 < s.k ∧ s.k ≤ 1) ∧
    (∀ now temp r, s.relayOn = true → s.controlActive = true → s.timeNext ≤ now →
      update s now temp = some r → now ≤ r.state.timeNext) := by
  have inv := inv9_reachable s h
  refine ⟨inv.1, ?_⟩
  intro now temp r hr hc ht hupd
  rw [update_on_phase s now temp hc ht hr] at hupd
  have hre : r = update_on s now := (Option.some.inj hupd).symm
  rw [hre, update_on_eq]
  show now ≤ now + s.timeStep * (1 - s.k)
  have hk := inv.1 hr
  rw [inv.2, one_mul]
  linarith [hk.2]

/-- C9 witness: the reachable state after the first sampling tick has the
relay on with `k = 1`, and closing that on-phase at time 1 schedules
`next_action_time = 1 ≥ 1`. -/
theorem relay_k_bounds_invariant_witness :
    (0 < traceS1.k ∧ traceS1.k ≤ 1) ∧ (1 : ℚ) ≤ traceS2.timeNext := by
  have h1 : update (activate (initState 0) 0) 0 25 = some ⟨traceS1, [true], 1, [⟨0, 25, 1⟩]⟩ := by
    norm_num [update, update_off, update_gains, antiwindup_check, set_integral_zero,
      set_controlparam_antiwindup, set_relayState, update_priors, traceS1,
      activate, set_controlparam_default, initState,
      PID_DEFAULT_KP, PID_DEFAULT_TI, PID_DEFAULT_TD]
  have hreach : Reachable traceS1 :=
    Reachable.step_update (activate (initState 0) 0) 0 25 ⟨traceS1, [true], 1, [⟨0, 25, 1⟩]⟩
      (Reachable.step_activate (initState 0) 0 (Reachable.init 0)) h1
  have main := relay_k_bounds_invariant traceS1 hreach
  have h2 : update traceS1 1 25 = some ⟨traceS2, [false], 0, []⟩ := by
    norm_num [update, update_on, set_relayState, update_priors, traceS1, traceS2]
  exact ⟨main.1 rfl,
    main.2 1 25 ⟨traceS2, [false], 0, []⟩ rfl rfl (by norm_num [traceS1]) h2⟩
